import Mathlib

/-!
Verification of the multi-band Fast Session Transfer (FST) subsystem of the
Network-Digital-Twin repository: a shallow embedding of the FST session state
machine of `RegularWifiMac` (src/src/wifi/model/regular-wifi-mac.cc) and the
band-switch migration routine of `MultiBandNetDevice` (multi-band-net-device.cc),
together with theorems settling the specification claims about them.
-/

namespace NetworkDigitalTwin

/-- FST session states used by `RegularWifiMac` (FST_INITIAL_STATE etc.). -/
inductive FstStateKind
  | FST_INITIAL_STATE
  | FST_SETUP_COMPLETION_STATE
  | FST_TRANSITION_DONE_STATE
  | FST_TRANSITION_CONFIRMED_STATE
  deriving DecidableEq, Repr

/-- BandID values referenced by the source (Band_60GHz / Band_4_9GHz / Band_2_4GHz). -/
inductive BandID
  | Band_60GHz
  | Band_4_9GHz
  | Band_2_4GHz
  deriving DecidableEq, Repr

/-- The PHY standards that `RegularWifiMac::ChangeBand` maps band identifiers to. -/
inductive WifiPhyStandard
  | WIFI_PHY_STANDARD_80211ad
  | WIFI_PHY_STANDARD_80211n_5GHZ
  | WIFI_PHY_STANDARD_80211n_2_4GHZ
  deriving DecidableEq, Repr

/-- An FST session record, per peer (struct FstSession).  The
`LinkLossCountDownEvent` field is the ns-3 `EventId` handle; we model a handle
as a `Nat` naming a scheduled event in the simulator (0 = the default,
never-scheduled `EventId`). -/
structure FstSession where
  ID : Nat
  CurrentState : FstStateKind
  IsInitiator : Bool
  NewBandId : BandID
  LLT : Nat
  LinkLossCountDownEvent : Nat
  deriving DecidableEq, Repr

/-- A pending simulator event scheduled by `Simulator::Schedule` for
`RegularWifiMac::ChangeBand`:  it stores the expiry time (microseconds) and the
bound arguments (peer address, band identifier, isInitiator flag). -/
structure ScheduledEvent where
  eid : Nat
  time : Nat
  peer : Nat
  band : BandID
  isInitiator : Bool
  deriving DecidableEq, Repr

/-- The discrete-event simulator state: current time, the list of pending
(scheduled, not yet run, not cancelled) events, and a fresh-handle counter.
An `EventId` handle names an entry of `pending`; cancelling removes the entry;
overwriting a *handle* somewhere does not remove the entry. -/
structure SimState where
  now : Nat
  pending : List ScheduledEvent
  nextEid : Nat
  deriving DecidableEq, Repr

/-- The FST-relevant state of one `RegularWifiMac`: the per-peer session map
`m_fstSessionMap` (peer MAC addresses modelled as `Nat`), the session-id
counter `m_fstId`, and the configured link-loss timeout attribute `m_llt`. -/
structure MacState where
  fstSessionMap : List (Nat × FstSession)
  fstId : Nat
  llt : Nat
  deriving DecidableEq, Repr

/-- The world a `RegularWifiMac` acts on: its own state, the simulator, and the
log of `m_bandChangedCallback` invocations made by `ChangeBand`
(standard, peer, isInitiator), in invocation order. -/
structure World where
  mac : MacState
  sim : SimState
  switches : List (WifiPhyStandard × Nat × Bool)
  deriving DecidableEq, Repr

/-- `m_fstSessionMap.find (a)` as a value: the session stored for address `a`. -/
def lookupSession : List (Nat × FstSession) → Nat → Option FstSession
  | [], _ => none
  | (k, s) :: rest, a => if k = a then some s else lookupSession rest a

/-- `m_fstSessionMap[a] = s`: replace the entry for `a` in place, or insert it. -/
def storeSession : List (Nat × FstSession) → Nat → FstSession → List (Nat × FstSession)
  | [], a, s => [(a, s)]
  | (k, t) :: rest, a, s =>
      if k = a then (a, s) :: rest else (k, t) :: storeSession rest a s

/-- Modelled from the spec: `struct FstSession` is declared in
`regular-wifi-mac.h`, which is not in the source subset; `std::map::operator[]`
on a missing key value-initialises a fresh entry.  Scalar fields are taken as
zero / first-enumerator values and the default `EventId` handle as 0 (an
`EventId` that was never scheduled, hence not running). -/
def defaultFstSession : FstSession :=
  { ID := 0
    CurrentState := FstStateKind.FST_INITIAL_STATE
    IsInitiator := false
    NewBandId := BandID.Band_60GHz
    LLT := 0
    LinkLossCountDownEvent := 0 }

/-- `m_fstSessionMap[a]` (std::map subscript): returns the map (with a
default-constructed entry inserted when `a` was absent) and the entry. -/
def mapIndex (m : List (Nat × FstSession)) (a : Nat) :
    List (Nat × FstSession) × FstSession :=
  match lookupSession m a with
  | some s => (m, s)
  | none => (storeSession m a defaultFstSession, defaultFstSession)

/-- `EventId::IsRunning` for handle `h`: the named event is still pending. -/
def isRunning (sim : SimState) (h : Nat) : Bool :=
  sim.pending.any (fun e => e.eid = h)

/-- `EventId::Cancel` for handle `h`: remove the named event from the pending list. -/
def cancelEvent (sim : SimState) (h : Nat) : SimState :=
  { sim with pending := sim.pending.filter (fun e => e.eid ≠ h) }

/-- `Simulator::Schedule (MicroSeconds (delay), &RegularWifiMac::ChangeBand, this,
peer, band, isInitiator)`: append a fresh pending event expiring `delay` after
the current time and return its handle. -/
def scheduleChangeBand (sim : SimState) (delay : Nat) (peer : Nat)
    (band : BandID) (isInit : Bool) : SimState × Nat :=
  ({ sim with
      pending := sim.pending ++
        [{ eid := sim.nextEid, time := sim.now + delay, peer := peer,
           band := band, isInitiator := isInit }]
      nextEid := sim.nextEid + 1 },
   sim.nextEid)

/-- The band-to-standard mapping realised by the if/else chain in
`RegularWifiMac::ChangeBand` (regular-wifi-mac.cc:1213-1229). -/
def standardOf : BandID → WifiPhyStandard
  | BandID.Band_60GHz => WifiPhyStandard.WIFI_PHY_STANDARD_80211ad
  | BandID.Band_4_9GHz => WifiPhyStandard.WIFI_PHY_STANDARD_80211n_5GHZ
  | BandID.Band_2_4GHz => WifiPhyStandard.WIFI_PHY_STANDARD_80211n_2_4GHZ

/-- `RegularWifiMac::ChangeBand`: invoke `m_bandChangedCallback` with the
standard for the band (every `BandID` value has a branch; there is no state
guard of any kind). -/
def changeBand (w : World) (peer : Nat) (band : BandID) (isInit : Bool) : World :=
  { w with switches := w.switches ++ [(standardOf band, peer, isInit)] }

/-- The simulator running a pending event: time advances to its expiry, the
event leaves the pending list, and the scheduled call — always
`RegularWifiMac::ChangeBand` in this subsystem — executes. -/
def fireEvent (w : World) (e : ScheduledEvent) : World :=
  let w1 : World :=
    { w with sim := { w.sim with
        now := e.time
        pending := w.sim.pending.filter (fun x => x.eid ≠ e.eid) } }
  changeBand w1 e.peer e.band e.isInitiator

/-- `RegularWifiMac::MacTxOk` (regular-wifi-mac.cc:145-162): on a successful
transmission to `address`, if a session exists, is in
FST_SETUP_COMPLETION_STATE and its countdown is running, cancel it and
re-schedule `ChangeBand` after `LLT * 32`; otherwise do nothing. -/
def macTxOk (w : World) (address : Nat) : World :=
  match lookupSession w.mac.fstSessionMap address with
  | none => w
  | some s =>
      if s.CurrentState = FstStateKind.FST_SETUP_COMPLETION_STATE ∧
          isRunning w.sim s.LinkLossCountDownEvent = true then
        let sim1 := cancelEvent w.sim s.LinkLossCountDownEvent
        let p := scheduleChangeBand sim1 (s.LLT * 32) address s.NewBandId s.IsInitiator
        { w with
            sim := p.1
            mac := { w.mac with
              fstSessionMap := storeSession w.mac.fstSessionMap address
                { s with LinkLossCountDownEvent := p.2 } } }
      else w

/-- `RegularWifiMac::MacRxOk` (regular-wifi-mac.cc:164-181): identical body to
`MacTxOk`, triggered by a successful reception from `address`. -/
def macRxOk (w : World) (address : Nat) : World :=
  match lookupSession w.mac.fstSessionMap address with
  | none => w
  | some s =>
      if s.CurrentState = FstStateKind.FST_SETUP_COMPLETION_STATE ∧
          isRunning w.sim s.LinkLossCountDownEvent = true then
        let sim1 := cancelEvent w.sim s.LinkLossCountDownEvent
        let p := scheduleChangeBand sim1 (s.LLT * 32) address s.NewBandId s.IsInitiator
        { w with
            sim := p.1
            mac := { w.mac with
              fstSessionMap := storeSession w.mac.fstSessionMap address
                { s with LinkLossCountDownEvent := p.2 } } }
      else w

/-- `RegularWifiMac::TxOk`, case FST_SETUP_RESPONSE (regular-wifi-mac.cc:1175-1196):
the responder received the link-layer ACK for its Setup-Response.  The session
for `hdr.GetAddr1 ()` (map subscript) moves to FST_SETUP_COMPLETION_STATE; with
LLT = 0 it moves on to FST_TRANSITION_DONE_STATE and `ChangeBand` runs at once
with isInitiator = false; with LLT > 0 a countdown for `LLT * 32` is scheduled
with isInitiator = false. -/
def txOkFstSetupResponse (w : World) (addr1 : Nat) : World :=
  let mi := mapIndex w.mac.fstSessionMap addr1
  let s1 : FstSession := { mi.2 with CurrentState := FstStateKind.FST_SETUP_COMPLETION_STATE }
  if s1.LLT = 0 then
    let s2 : FstSession := { s1 with CurrentState := FstStateKind.FST_TRANSITION_DONE_STATE }
    let w1 : World :=
      { w with mac := { w.mac with fstSessionMap := storeSession mi.1 addr1 s2 } }
    changeBand w1 addr1 s2.NewBandId false
  else
    let p := scheduleChangeBand w.sim (s1.LLT * 32) addr1 s1.NewBandId false
    { w with
        sim := p.1
        mac := { w.mac with
          fstSessionMap := storeSession mi.1 addr1
            { s1 with LinkLossCountDownEvent := p.2 } } }

/-- `RegularWifiMac::TxOk`, case FST_ACK_RESPONSE (regular-wifi-mac.cc:1197-1204):
the responder got the ACK for its Ack-Response and moves the session for
`hdr.GetAddr1 ()` (map subscript) to FST_TRANSITION_CONFIRMED_STATE. -/
def txOkFstAckResponse (w : World) (addr1 : Nat) : World :=
  let mi := mapIndex w.mac.fstSessionMap addr1
  { w with mac := { w.mac with
      fstSessionMap := storeSession mi.1 addr1
        { mi.2 with CurrentState := FstStateKind.FST_TRANSITION_CONFIRMED_STATE } } }

/-- The fields of an FST Setup-Request frame that the receiver reads and the
initiator writes (`ExtFstSetupRequest` with its `SessionTransitionElement`). -/
structure FstSetupRequestFrame where
  fstsID : Nat
  newBand : BandID
  oldBand : BandID
  llt : Nat
  deriving DecidableEq, Repr

/-- `RegularWifiMac::Receive`, case FST_SETUP_REQUEST (regular-wifi-mac.cc:1331-1347):
the responder builds a brand-new session from the frame fields and assigns it
into the map for `hdr.GetAddr2 ()`, unconditionally overwriting any previous
entry; no timer is cancelled anywhere.  (The transmitted Setup-Response is not
modelled; it carries no local state change.) -/
def receiveFstSetupRequest (w : World) (sender : Nat) (req : FstSetupRequestFrame) :
    World :=
  let fstSession : FstSession :=
    { ID := req.fstsID
      CurrentState := FstStateKind.FST_INITIAL_STATE
      IsInitiator := false
      NewBandId := req.newBand
      LLT := req.llt
      LinkLossCountDownEvent := defaultFstSession.LinkLossCountDownEvent }
  { w with mac := { w.mac with
      fstSessionMap := storeSession w.mac.fstSessionMap sender fstSession } }

/-- `RegularWifiMac::Receive`, case FST_SETUP_RESPONSE (regular-wifi-mac.cc:1348-1382):
the initiator receives the Setup-Response.  Status 0: session (map subscript on
`hdr.GetAddr2 ()`) moves to FST_SETUP_COMPLETION_STATE; LLT = 0 moves it on to
FST_TRANSITION_DONE_STATE with an immediate `ChangeBand` (isInitiator = true);
LLT > 0 schedules the countdown for `LLT * 32` (isInitiator = true).
Non-zero status: only a debug log, no state change at all. -/
def receiveFstSetupResponse (w : World) (sender : Nat) (statusCode : Nat) : World :=
  if statusCode = 0 then
    let mi := mapIndex w.mac.fstSessionMap sender
    let s1 : FstSession := { mi.2 with CurrentState := FstStateKind.FST_SETUP_COMPLETION_STATE }
    if s1.LLT = 0 then
      let s2 : FstSession := { s1 with CurrentState := FstStateKind.FST_TRANSITION_DONE_STATE }
      let w1 : World :=
        { w with mac := { w.mac with fstSessionMap := storeSession mi.1 sender s2 } }
      changeBand w1 sender s2.NewBandId true
    else
      let p := scheduleChangeBand w.sim (s1.LLT * 32) sender s1.NewBandId true
      { w with
          sim := p.1
          mac := { w.mac with
            fstSessionMap := storeSession mi.1 sender
              { s1 with LinkLossCountDownEvent := p.2 } } }
  else
    w

/-- `RegularWifiMac::Receive`, case FST_TEAR_DOWN (regular-wifi-mac.cc:1383-1391):
the session for `hdr.GetAddr2 ()` (map subscript) is put back to
FST_INITIAL_STATE.  Nothing else happens: in particular
`LinkLossCountDownEvent` is not cancelled. -/
def receiveFstTearDown (w : World) (sender : Nat) : World :=
  let mi := mapIndex w.mac.fstSessionMap sender
  { w with mac := { w.mac with
      fstSessionMap := storeSession mi.1 sender
        { mi.2 with CurrentState := FstStateKind.FST_INITIAL_STATE } } }

/-- `RegularWifiMac::Receive`, case FST_ACK_REQUEST (regular-wifi-mac.cc:1392-1400):
only transmits an Ack-Response; no session state is read or written. -/
def receiveFstAckRequest (w : World) (_sender : Nat) : World :=
  w

/-- `RegularWifiMac::Receive`, case FST_ACK_RESPONSE (regular-wifi-mac.cc:1401-1411):
the session for `hdr.GetAddr2 ()` (map subscript — a missing entry is silently
default-created) moves to FST_TRANSITION_CONFIRMED_STATE. -/
def receiveFstAckResponse (w : World) (sender : Nat) : World :=
  let mi := mapIndex w.mac.fstSessionMap sender
  { w with mac := { w.mac with
      fstSessionMap := storeSession mi.1 sender
        { mi.2 with CurrentState := FstStateKind.FST_TRANSITION_CONFIRMED_STATE } } }

/-- `RegularWifiMac::SetupFSTSession` (regular-wifi-mac.cc:976-1031): increments
`m_fstId`, builds a Setup-Request whose session-transition element always
carries new band = Band_4_9GHz and old band = Band_60GHz, and stores a fresh
initiator session (FST_INITIAL_STATE, IsInitiator = true, NewBandId =
Band_4_9GHz, LLT = `m_llt`) into the map, unconditionally overwriting any
previous entry for `staAddress`.  Returns the new world together with the
queued request frame. -/
def setupFSTSession (w : World) (staAddress : Nat) : World × FstSetupRequestFrame :=
  let newFstId := w.mac.fstId + 1
  let req : FstSetupRequestFrame :=
    { fstsID := newFstId
      newBand := BandID.Band_4_9GHz
      oldBand := BandID.Band_60GHz
      llt := w.mac.llt }
  let fstSession : FstSession :=
    { ID := newFstId
      CurrentState := FstStateKind.FST_INITIAL_STATE
      IsInitiator := true
      NewBandId := BandID.Band_4_9GHz
      LLT := w.mac.llt
      LinkLossCountDownEvent := defaultFstSession.LinkLossCountDownEvent }
  ({ w with mac := { w.mac with
       fstId := newFstId
       fstSessionMap := storeSession w.mac.fstSessionMap staAddress fstSession } },
   req)

/-- A queued frame: destination address plus a payload tag that keeps distinct
frames distinguishable so that ordering statements are meaningful. -/
structure Frame where
  dest : Nat
  payload : Nat
  deriving DecidableEq, Repr

/-- A block-ack agreement for one destination on one access-category queue:
negotiated starting sequence number, buffer size and inactivity timeout. -/
structure BlockAckAgreement where
  startingSequence : Nat
  bufferSize : Nat
  timeout : Nat
  deriving DecidableEq, Repr

/-- One access-category transmit queue: the FIFO of pending frames plus the
per-destination block-ack agreements held by that queue. -/
structure WifiMacQueue where
  frames : List Frame
  agreements : List (Nat × BlockAckAgreement)
  deriving DecidableEq, Repr

/-- The agreement stored for destination `a`, if any. -/
def lookupAgreement : List (Nat × BlockAckAgreement) → Nat → Option BlockAckAgreement
  | [], _ => none
  | (k, g) :: rest, a => if k = a then some g else lookupAgreement rest a

/-- Install an agreement for destination `a`, replacing any prior one. -/
def storeAgreement : List (Nat × BlockAckAgreement) → Nat → BlockAckAgreement →
    List (Nat × BlockAckAgreement)
  | [], a, g => [(a, g)]
  | (k, t) :: rest, a, g =>
      if k = a then (a, g) :: rest else (k, t) :: storeAgreement rest a g

/-- Modelled from the spec: `WifiMacQueue::TransferPacketsByAddress` is invoked
by `MultiBandNetDevice::BandChanged` but its implementation file is not in the
source subset.  Per spec section 4.1, it removes, in original order, every
queued frame addressed to `dest` from the source queue and appends them, in the
same relative order, to the target queue; frames for other destinations are
untouched and keep their positions; agreements are not touched. -/
def transferPacketsByAddress (dest : Nat) (src tgt : WifiMacQueue) :
    WifiMacQueue × WifiMacQueue :=
  ({ src with frames := src.frames.filter (fun f => f.dest ≠ dest) },
   { tgt with frames := tgt.frames ++ src.frames.filter (fun f => f.dest = dest) })

/-- Modelled from the spec: the same transfer when source and target are the
one and only queue (the `old == new` invocation of `BandChanged`): the frames
for `dest` are removed and then appended at the tail of the same queue. -/
def transferPacketsByAddressSelf (dest : Nat) (q : WifiMacQueue) : WifiMacQueue :=
  { q with frames :=
      q.frames.filter (fun f => f.dest ≠ dest) ++
      q.frames.filter (fun f => f.dest = dest) }

/-- Modelled from the spec: `QosTxop/WifiMacQueue::CopyBlockAckAgreements` is
invoked by `MultiBandNetDevice::BandChanged` but its implementation file is not
in the source subset.  Per spec section 4.1, if an agreement exists for `dest`
it installs an equivalent agreement (same parameters) on the target queue,
replacing any prior agreement for that destination there, and does not remove
the source agreement. -/
def copyBlockAckAgreements (dest : Nat) (src tgt : WifiMacQueue) : WifiMacQueue :=
  match lookupAgreement src.agreements dest with
  | some g => { tgt with agreements := storeAgreement tgt.agreements dest g }
  | none => tgt

/-- The access categories, in the fixed order used by `BandChanged`. -/
inductive AcIndex
  | AC_VO
  | AC_VI
  | AC_BE
  | AC_BK
  deriving DecidableEq, Repr

/-- The station roles `BandChanged` dispatches on via
`newMac->GetTypeOfStation ()` (part_001:184-203): DMG_STA and STA take the
client branch, AP and DMG_AP take the access-point branch, any other role
(e.g. the DMG ad-hoc MAC of part_000) takes no branch. -/
inductive TypeOfStation
  | STA
  | AP
  | DMG_STA
  | DMG_AP
  | DMG_ADHOC
  deriving DecidableEq, Repr

/-- Modelled from the spec: `WifiRemoteStationManager::RecordGotAssocTxOk` is
invoked by `BandChanged` for AP/DMG_AP roles but the station manager's
implementation is not in the source subset.  Per spec section 4.3 step 5 it
marks the peer as successfully associated in the bundle's station-tracking
table; marking an already-marked peer changes nothing. -/
def recordGotAssocTxOk (records : List Nat) (a : Nat) : List Nat :=
  if a ∈ records then records else records ++ [a]

/-- The queue state of one technology bundle's MAC instance: the DCA (`Txop`)
queue, the four EDCA queues, the station role of its MAC, and the association
state `BandChanged` touches — for a client role the BSS identifier and MAC
association state (the latter abstracted to a `Nat` tag), for an access-point
role the station manager's per-peer association records. -/
structure MacBundle where
  dcaQueue : WifiMacQueue
  voQueue : WifiMacQueue
  viQueue : WifiMacQueue
  beQueue : WifiMacQueue
  bkQueue : WifiMacQueue
  typeOfStation : TypeOfStation
  bssid : Nat
  assocState : Nat
  assocRecords : List Nat
  deriving DecidableEq, Repr

/-- The EDCA queue of a bundle for a given access category. -/
def acQueue (b : MacBundle) : AcIndex → WifiMacQueue
  | AcIndex.AC_VO => b.voQueue
  | AcIndex.AC_VI => b.viQueue
  | AcIndex.AC_BE => b.beQueue
  | AcIndex.AC_BK => b.bkQueue

/-- Modelled from the spec: a value-initialised technology bundle, produced by
`std::map::operator[]` on `m_list` for an unregistered standard (all queues
empty, no agreements, zeroed association state, first-enumerator role). -/
def defaultMacBundle : MacBundle :=
  { dcaQueue := { frames := [], agreements := [] }
    voQueue := { frames := [], agreements := [] }
    viQueue := { frames := [], agreements := [] }
    beQueue := { frames := [], agreements := [] }
    bkQueue := { frames := [], agreements := [] }
    typeOfStation := TypeOfStation.STA
    bssid := 0
    assocState := 0
    assocRecords := [] }

/-- The station-role dispatch of `BandChanged` (part_001:184-203), run after
the queue and agreement migration: for DMG_STA and STA roles the new MAC gets
the old MAC's BSS identifier and association state
(`SetBssid`/`SetState`); for AP and DMG_AP roles the (new) station manager
records the peer as successfully associated (`RecordGotAssocTxOk (address)`);
any other role gets nothing.  The dispatch is on the NEW bundle's role; when
`BandChanged` runs with `old == new` it is applied to the single aliased
bundle (the client copy is then the identity, the access-point branch still
mutates the association records). -/
def carryOverAssociation (address : Nat) (oldB newB : MacBundle) : MacBundle :=
  match newB.typeOfStation with
  | TypeOfStation.DMG_STA => { newB with bssid := oldB.bssid, assocState := oldB.assocState }
  | TypeOfStation.STA => { newB with bssid := oldB.bssid, assocState := oldB.assocState }
  | TypeOfStation.AP =>
      { newB with assocRecords := recordGotAssocTxOk newB.assocRecords address }
  | TypeOfStation.DMG_AP =>
      { newB with assocRecords := recordGotAssocTxOk newB.assocRecords address }
  | TypeOfStation.DMG_ADHOC => newB

/-- `MultiBandNetDevice`: the technology list `m_list` keyed by PHY standard,
and the currently active technology (the `m_mac`/`m_phy`/`m_stationManager`
pointers, all set together by `SwitchTechnology`, represented by the active
standard). -/
structure MultiBandNetDevice where
  list : List (WifiPhyStandard × MacBundle)
  active : WifiPhyStandard
  deriving DecidableEq, Repr

/-- `m_list` lookup by standard. -/
def lookupBundle : List (WifiPhyStandard × MacBundle) → WifiPhyStandard → Option MacBundle
  | [], _ => none
  | (k, b) :: rest, std => if k = std then some b else lookupBundle rest std

/-- `m_list[std] = b`: replace the bundle for `std` in place, or insert it. -/
def storeBundle : List (WifiPhyStandard × MacBundle) → WifiPhyStandard → MacBundle →
    List (WifiPhyStandard × MacBundle)
  | [], std, b => [(std, b)]
  | (k, t) :: rest, std, b =>
      if k = std then (std, b) :: rest else (k, t) :: storeBundle rest std b

/-- `m_list[std]` (std::map subscript): the list (with a default bundle
inserted when `std` was absent) and the bundle. -/
def bundleIndex (l : List (WifiPhyStandard × MacBundle)) (std : WifiPhyStandard) :
    List (WifiPhyStandard × MacBundle) × MacBundle :=
  match lookupBundle l std with
  | some b => (l, b)
  | none => (storeBundle l std defaultMacBundle, defaultMacBundle)

/-- `MultiBandNetDevice::SwitchTechnology` (part_001:144-153): repoint the
active-technology references (`m_mac`, `m_phy`, `m_stationManager`,
`m_standard`) at the bundle registered for `standard`; the previous bundle
stays alive in `m_list`. -/
def switchTechnology (d : MultiBandNetDevice) (standard : WifiPhyStandard) :
    MultiBandNetDevice :=
  { list := (bundleIndex d.list standard).1, active := standard }

/-- The result of `BandChanged`: the device afterwards plus the
`NotifyBandChanged (standard, address, isInitiator)` completion notifications
it issued, in order. -/
structure BandChangedResult where
  device : MultiBandNetDevice
  notified : List (WifiPhyStandard × Nat × Bool)
  deriving DecidableEq, Repr

/-- `MultiBandNetDevice::BandChanged` (part_001:156-206): capture the old
(currently active) bundle, `SwitchTechnology` to the target, then transfer the
DCA queue and the four EDCA queues (VO, VI, BE, BK, in that order) for
`address` from old to new, copy the block-ack agreements of the four EDCA
queues (same order), run the station-role association dispatch
(`carryOverAssociation`: BSS id and MAC state for client roles,
`RecordGotAssocTxOk` for AP roles), and finally call `NotifyBandChanged`.
There is no `old == new` guard in the source: when the target standard is the
already active one every call runs against the single aliased bundle — the
queue transfer then moves the frames for `address` to the tail of their own
queue, the aliased agreement copy and the aliased client-role association
copy change nothing, but the AP-role branch still records the peer as
associated on the (same) station manager. -/
def bandChanged (d : MultiBandNetDevice) (standard : WifiPhyStandard)
    (address : Nat) (isInit : Bool) : BandChangedResult :=
  let oldStd := d.active
  if oldStd = standard then
    let li := bundleIndex d.list standard
    let b := li.2
    let b1 : MacBundle :=
      { b with
          dcaQueue := transferPacketsByAddressSelf address b.dcaQueue
          voQueue := transferPacketsByAddressSelf address b.voQueue
          viQueue := transferPacketsByAddressSelf address b.viQueue
          beQueue := transferPacketsByAddressSelf address b.beQueue
          bkQueue := transferPacketsByAddressSelf address b.bkQueue }
    let b2 : MacBundle :=
      { b1 with
          voQueue := copyBlockAckAgreements address b1.voQueue b1.voQueue
          viQueue := copyBlockAckAgreements address b1.viQueue b1.viQueue
          beQueue := copyBlockAckAgreements address b1.beQueue b1.beQueue
          bkQueue := copyBlockAckAgreements address b1.bkQueue b1.bkQueue }
    let b3 := carryOverAssociation address b2 b2
    { device := { list := storeBundle li.1 standard b3, active := standard }
      notified := [(standard, address, isInit)] }
  else
    let li1 := bundleIndex d.list oldStd
    let oldB := li1.2
    let li2 := bundleIndex li1.1 standard
    let newB := li2.2
    let pDca := transferPacketsByAddress address oldB.dcaQueue newB.dcaQueue
    let pVo := transferPacketsByAddress address oldB.voQueue newB.voQueue
    let pVi := transferPacketsByAddress address oldB.viQueue newB.viQueue
    let pBe := transferPacketsByAddress address oldB.beQueue newB.beQueue
    let pBk := transferPacketsByAddress address oldB.bkQueue newB.bkQueue
    let newVo := copyBlockAckAgreements address pVo.1 pVo.2
    let newVi := copyBlockAckAgreements address pVi.1 pVi.2
    let newBe := copyBlockAckAgreements address pBe.1 pBe.2
    let newBk := copyBlockAckAgreements address pBk.1 pBk.2
    let oldB1 : MacBundle :=
      { oldB with
          dcaQueue := pDca.1, voQueue := pVo.1, viQueue := pVi.1,
          beQueue := pBe.1, bkQueue := pBk.1 }
    let newB1 : MacBundle :=
      { newB with
          dcaQueue := pDca.2, voQueue := newVo, viQueue := newVi,
          beQueue := newBe, bkQueue := newBk }
    let newB2 := carryOverAssociation address oldB newB1
    { device :=
        { list := storeBundle (storeBundle li2.1 oldStd oldB1) standard newB2,
          active := standard }
      notified := [(standard, address, isInit)] }

/-! Concrete inputs used by the closed theorems and witnesses below. -/

/-- A session in FST_SETUP_COMPLETION_STATE whose countdown (event handle 1) is
running: LLT = 5, so the countdown spans 5 * 32 = 160 microseconds. -/
def sessArmed : FstSession :=
  { ID := 1
    CurrentState := FstStateKind.FST_SETUP_COMPLETION_STATE
    IsInitiator := true
    NewBandId := BandID.Band_4_9GHz
    LLT := 5
    LinkLossCountDownEvent := 1 }

/-- The pending `ChangeBand` event armed for `sessArmed`, expiring at t = 180. -/
def evArmed : ScheduledEvent :=
  { eid := 1, time := 180, peer := 1, band := BandID.Band_4_9GHz, isInitiator := true }

/-- A world at t = 20 in which peer 1 has the armed session `sessArmed`. -/
def wArmed : World :=
  { mac := { fstSessionMap := [(1, sessArmed)], fstId := 1, llt := 5 }
    sim := { now := 20, pending := [evArmed], nextEid := 2 }
    switches := [] }

/-- A world with no FST sessions at all. -/
def wEmpty : World :=
  { mac := { fstSessionMap := [], fstId := 0, llt := 0 }
    sim := { now := 0, pending := [], nextEid := 1 }
    switches := [] }

/-- An initiator session for peer 3 still in FST_INITIAL_STATE with LLT = 0. -/
def sessLltZero : FstSession :=
  { ID := 2
    CurrentState := FstStateKind.FST_INITIAL_STATE
    IsInitiator := true
    NewBandId := BandID.Band_4_9GHz
    LLT := 0
    LinkLossCountDownEvent := 0 }

/-- A world in which peer 3 has the LLT = 0 session `sessLltZero`. -/
def wLltZero : World :=
  { mac := { fstSessionMap := [(3, sessLltZero)], fstId := 2, llt := 0 }
    sim := { now := 50, pending := [], nextEid := 1 }
    switches := [] }

/-- An initiator session for peer 3 still in FST_INITIAL_STATE with LLT = 7. -/
def sessLltSeven : FstSession :=
  { ID := 2
    CurrentState := FstStateKind.FST_INITIAL_STATE
    IsInitiator := true
    NewBandId := BandID.Band_4_9GHz
    LLT := 7
    LinkLossCountDownEvent := 0 }

/-- A world in which peer 3 has the LLT = 7 session `sessLltSeven`. -/
def wLltSeven : World :=
  { mac := { fstSessionMap := [(3, sessLltSeven)], fstId := 2, llt := 7 }
    sim := { now := 50, pending := [], nextEid := 1 }
    switches := [] }

/-- A Setup-Request frame overwriting peer 1 with a fresh responder session. -/
def reqOverwrite : FstSetupRequestFrame :=
  { fstsID := 9, newBand := BandID.Band_2_4GHz, oldBand := BandID.Band_60GHz, llt := 3 }

/-- A 60 GHz bundle holding, in its voice queue, a frame for peer 1 followed by
a frame for peer 2, plus a block-ack agreement for peer 1. -/
def bundleSixty : MacBundle :=
  { defaultMacBundle with
      voQueue :=
        { frames := [{ dest := 1, payload := 10 }, { dest := 2, payload := 20 }]
          agreements := [(1, { startingSequence := 4, bufferSize := 64, timeout := 100 })] }
      bssid := 5
      assocState := 2 }

/-- An empty 5 GHz bundle with one pre-existing best-effort frame for peer 2. -/
def bundleFive : MacBundle :=
  { defaultMacBundle with
      beQueue := { frames := [{ dest := 2, payload := 77 }], agreements := [] } }

/-- A device active on 802.11ad with `bundleSixty` registered there and
`bundleFive` registered for 802.11n/5GHz. -/
def devTwoBands : MultiBandNetDevice :=
  { list := [(WifiPhyStandard.WIFI_PHY_STANDARD_80211ad, bundleSixty),
             (WifiPhyStandard.WIFI_PHY_STANDARD_80211n_5GHZ, bundleFive)]
    active := WifiPhyStandard.WIFI_PHY_STANDARD_80211ad }

/-- A device active on 802.11ad with only `bundleSixty` registered. -/
def devOneBand : MultiBandNetDevice :=
  { list := [(WifiPhyStandard.WIFI_PHY_STANDARD_80211ad, bundleSixty)]
    active := WifiPhyStandard.WIFI_PHY_STANDARD_80211ad }

/-- An AP-role 60 GHz bundle with no association record for any peer yet. -/
def bundleApSixty : MacBundle :=
  { defaultMacBundle with typeOfStation := TypeOfStation.AP }

/-- A device active on 802.11ad whose (only) bundle is the AP-role
`bundleApSixty`. -/
def devApBand : MultiBandNetDevice :=
  { list := [(WifiPhyStandard.WIFI_PHY_STANDARD_80211ad, bundleApSixty)]
    active := WifiPhyStandard.WIFI_PHY_STANDARD_80211ad }

/-! Association-list helper lemmas. -/

theorem lookupSession_storeSession_self (m : List (Nat × FstSession)) (a : Nat)
    (s : FstSession) : lookupSession (storeSession m a s) a = some s := by
  induction m with
  | nil => simp [storeSession, lookupSession]
  | cons kv rest ih =>
      obtain ⟨k, t⟩ := kv
      by_cases hk : k = a
      · simp [storeSession, lookupSession, hk]
      · simp [storeSession, lookupSession, hk, ih]

theorem mapIndex_eq_of_lookup {m : List (Nat × FstSession)} {a : Nat}
    {s : FstSession} (h : lookupSession m a = some s) : mapIndex m a = (m, s) := by
  simp [mapIndex, h]

theorem lookupBundle_storeBundle_self (l : List (WifiPhyStandard × MacBundle))
    (std : WifiPhyStandard) (b : MacBundle) :
    lookupBundle (storeBundle l std b) std = some b := by
  induction l with
  | nil => simp [storeBundle, lookupBundle]
  | cons kv rest ih =>
      obtain ⟨k, t⟩ := kv
      by_cases hk : k = std
      · simp [storeBundle, lookupBundle, hk]
      · simp [storeBundle, lookupBundle, hk, ih]

theorem lookupBundle_storeBundle_ne (l : List (WifiPhyStandard × MacBundle))
    {std1 std2 : WifiPhyStandard} (b : MacBundle) (h : std2 ≠ std1) :
    lookupBundle (storeBundle l std1 b) std2 = lookupBundle l std2 := by
  induction l with
  | nil => simp [storeBundle, lookupBundle, Ne.symm h]
  | cons kv rest ih =>
      obtain ⟨k, t⟩ := kv
      by_cases hk : k = std1
      · simp [storeBundle, lookupBundle, hk, Ne.symm h]
      · simp [storeBundle, lookupBundle, hk, ih]

theorem bundleIndex_eq_of_lookup {l : List (WifiPhyStandard × MacBundle)}
    {std : WifiPhyStandard} {b : MacBundle} (h : lookupBundle l std = some b) :
    bundleIndex l std = (l, b) := by
  simp [bundleIndex, h]

theorem lookupAgreement_storeAgreement_self (l : List (Nat × BlockAckAgreement))
    (a : Nat) (g : BlockAckAgreement) :
    lookupAgreement (storeAgreement l a g) a = some g := by
  induction l with
  | nil => simp [storeAgreement, lookupAgreement]
  | cons kv rest ih =>
      obtain ⟨k, t⟩ := kv
      by_cases hk : k = a
      · simp [storeAgreement, lookupAgreement, hk]
      · simp [storeAgreement, lookupAgreement, hk, ih]

theorem storeAgreement_of_lookup {l : List (Nat × BlockAckAgreement)} {a : Nat}
    {g : BlockAckAgreement} (h : lookupAgreement l a = some g) :
    storeAgreement l a g = l := by
  induction l with
  | nil => simp [lookupAgreement] at h
  | cons kv rest ih =>
      obtain ⟨k, t⟩ := kv
      by_cases hk : k = a
      · subst hk
        simp [lookupAgreement] at h
        simp [storeAgreement, h]
      · simp [lookupAgreement, hk] at h
        simp [storeAgreement, hk, ih h]

theorem copyBlockAckAgreements_self (a : Nat) (q : WifiMacQueue) :
    copyBlockAckAgreements a q q = q := by
  unfold copyBlockAckAgreements
  cases h : lookupAgreement q.agreements a with
  | none => rfl
  | some g => simp [storeAgreement_of_lookup h]

theorem macRxOk_eq_macTxOk (w : World) (a : Nat) : macRxOk w a = macTxOk w a := rfl

/-! Claim theorems. -/

/-- C1: evaluation of the code at the failing input.  Peer 1 is in
FST_SETUP_COMPLETION_STATE with an armed link-loss countdown (event 1, firing
at t = 180).  Receiving an FST Teardown resets the state to
FST_INITIAL_STATE, but the countdown is NOT cancelled: the pending event list
is untouched, the handle is still running, and when the stale event expires it
still invokes `ChangeBand`, so a band switch fires for the session after the
teardown — contradicting the claim (and the spec, which requires the reset to
cancel any running countdown so that no switch fires afterward). -/
theorem teardown_leaves_stale_countdown :
    (lookupSession (receiveFstTearDown wArmed 1).mac.fstSessionMap 1).map
        FstSession.CurrentState = some FstStateKind.FST_INITIAL_STATE
  ∧ (receiveFstTearDown wArmed 1).sim.pending = [evArmed]
  ∧ isRunning (receiveFstTearDown wArmed 1).sim
      sessArmed.LinkLossCountDownEvent = true
  ∧ (fireEvent (receiveFstTearDown wArmed 1) evArmed).switches
      = [(WifiPhyStandard.WIFI_PHY_STANDARD_80211n_5GHZ, 1, true)] := by decide

/-- C8: a Setup-Response carrying a non-zero status code is a complete no-op
on the initiator: the whole world — session map (hence a session still in
FST_INITIAL_STATE stays there), pending timers and switch log — is unchanged,
so no countdown is armed and no band switch is attempted. -/
theorem failed_setup_response_is_noop (w : World) (sender status : Nat)
    (h : status ≠ 0) : receiveFstSetupResponse w sender status = w := by
  simp [receiveFstSetupResponse, h]

/-- C8 witness: a concrete non-zero status at the empty world. -/
theorem failed_setup_response_is_noop_witness :
    receiveFstSetupResponse wEmpty 3 37 = wEmpty :=
  failed_setup_response_is_noop wEmpty 3 37 (by decide)

/-- C9 counterexample: in `wArmed`, peer 1 has a session whose countdown timer
(event 1) is pending and running, yet a received Setup-Request overwrites the
session with a brand-new one without cancelling the timer: the pending event
survives, and when it fires it still executes a band switch.  This refutes the
claimed invariant that a session with a pending countdown is never superseded
without the timer being cancelled first. -/
theorem setup_request_overwrites_pending_session :
    isRunning wArmed.sim sessArmed.LinkLossCountDownEvent = true
  ∧ lookupSession (receiveFstSetupRequest wArmed 1 reqOverwrite).mac.fstSessionMap 1
      = some { ID := 9, CurrentState := FstStateKind.FST_INITIAL_STATE,
               IsInitiator := false, NewBandId := BandID.Band_2_4GHz, LLT := 3,
               LinkLossCountDownEvent := 0 }
  ∧ (receiveFstSetupRequest wArmed 1 reqOverwrite).sim.pending = [evArmed]
  ∧ (fireEvent (receiveFstSetupRequest wArmed 1 reqOverwrite) evArmed).switches
      = [(WifiPhyStandard.WIFI_PHY_STANDARD_80211n_5GHZ, 1, true)] := by decide

/-- C9 amended: both operations that create or replace a session for a peer —
local initiation (`SetupFSTSession`) and receipt of a Setup-Request —
unconditionally overwrite the map entry with a fresh session and never touch
the simulator, so a countdown timer pending for the superseded session is not
cancelled and remains scheduled. -/
theorem session_creation_never_cancels_timer (w : World) (a : Nat)
    (req : FstSetupRequestFrame) :
    (receiveFstSetupRequest w a req).sim = w.sim
  ∧ lookupSession (receiveFstSetupRequest w a req).mac.fstSessionMap a
      = some { ID := req.fstsID, CurrentState := FstStateKind.FST_INITIAL_STATE,
               IsInitiator := false, NewBandId := req.newBand, LLT := req.llt,
               LinkLossCountDownEvent := 0 }
  ∧ (setupFSTSession w a).1.sim = w.sim
  ∧ lookupSession (setupFSTSession w a).1.mac.fstSessionMap a
      = some { ID := w.mac.fstId + 1, CurrentState := FstStateKind.FST_INITIAL_STATE,
               IsInitiator := true, NewBandId := BandID.Band_4_9GHz, LLT := w.mac.llt,
               LinkLossCountDownEvent := 0 } := by
  refine ⟨rfl, ?_, rfl, ?_⟩
  · simp [receiveFstSetupRequest, defaultFstSession, lookupSession_storeSession_self]
  · simp [setupFSTSession, defaultFstSession, lookupSession_storeSession_self]

/-- C10: `SetupFSTSession` always uses the fixed band pair — the Setup-Request
carries new band Band_4_9GHz and old band Band_60GHz regardless of the current
state — creates the stored session in FST_INITIAL_STATE with IsInitiator =
true, NewBandId = Band_4_9GHz and LLT = `m_llt`, assigns session id
`m_fstId + 1`, and each successive local initiation uses an id exactly one
greater than the previous one. -/
theorem setup_fst_session_fixed_bands (w : World) (a : Nat) :
    (setupFSTSession w a).2.newBand = BandID.Band_4_9GHz
  ∧ (setupFSTSession w a).2.oldBand = BandID.Band_60GHz
  ∧ (setupFSTSession w a).2.fstsID = w.mac.fstId + 1
  ∧ (setupFSTSession w a).2.llt = w.mac.llt
  ∧ lookupSession (setupFSTSession w a).1.mac.fstSessionMap a
      = some { ID := w.mac.fstId + 1, CurrentState := FstStateKind.FST_INITIAL_STATE,
               IsInitiator := true, NewBandId := BandID.Band_4_9GHz, LLT := w.mac.llt,
               LinkLossCountDownEvent := 0 }
  ∧ (setupFSTSession w a).1.mac.fstId = w.mac.fstId + 1
  ∧ (∀ b : Nat, (setupFSTSession (setupFSTSession w a).1 b).2.fstsID
      = (setupFSTSession w a).2.fstsID + 1) := by
  refine ⟨rfl, rfl, rfl, rfl, ?_, rfl, fun b => rfl⟩
  simp [setupFSTSession, defaultFstSession, lookupSession_storeSession_self]

/-- C7 counterexample: in `wEmpty` no session exists for peer 7, yet receiving
an FST Ack-Response from peer 7 neither fails nor drops the frame: the map
subscript silently default-creates a session entry for the peer and sets its
state to FST_TRANSITION_CONFIRMED_STATE — session state is created and mutated
for an unknown session, refuting the claim. -/
theorem unknown_peer_ack_response_creates_session :
    lookupSession wEmpty.mac.fstSessionMap 7 = none
  ∧ lookupSession (receiveFstAckResponse wEmpty 7).mac.fstSessionMap 7
      = some { defaultFstSession with
                 CurrentState := FstStateKind.FST_TRANSITION_CONFIRMED_STATE } := by
  decide

/-- C7 amended: only an unrecognized FST action sub-type is fatal
(NS_FATAL_ERROR in the default case); an FST Ack-Response or Teardown from a
peer with no session entry is processed silently — the map subscript creates a
default session entry for that peer and mutates its state
(FST_TRANSITION_CONFIRMED_STATE for Ack-Response, FST_INITIAL_STATE for
Teardown), while an Ack-Request from an unknown peer leaves the session map
unchanged. -/
theorem unknown_session_frames_create_default_entry (w : World) (p : Nat)
    (h : lookupSession w.mac.fstSessionMap p = none) :
    lookupSession (receiveFstAckResponse w p).mac.fstSessionMap p
      = some { defaultFstSession with
                 CurrentState := FstStateKind.FST_TRANSITION_CONFIRMED_STATE }
  ∧ lookupSession (receiveFstTearDown w p).mac.fstSessionMap p
      = some { defaultFstSession with
                 CurrentState := FstStateKind.FST_INITIAL_STATE }
  ∧ receiveFstAckRequest w p = w := by
  refine ⟨?_, ?_, rfl⟩
  · simp only [receiveFstAckResponse, mapIndex, h]
    simp [lookupSession_storeSession_self]
  · simp only [receiveFstTearDown, mapIndex, h]
    simp [lookupSession_storeSession_self]

/-- C7 amended witness: peer 7 is unknown in the empty world. -/
theorem unknown_session_frames_create_default_entry_witness :
    lookupSession (receiveFstAckResponse wEmpty 7).mac.fstSessionMap 7
      = some { defaultFstSession with
                 CurrentState := FstStateKind.FST_TRANSITION_CONFIRMED_STATE } :=
  (unknown_session_frames_create_default_entry wEmpty 7 (by decide)).1

/-- C2: on confirmed link-layer delivery of a successful Setup-Response the
LLT branching is as claimed, on both sides.  Responder side
(`TxOk`, FST_SETUP_RESPONSE case) and initiator side (`Receive`,
FST_SETUP_RESPONSE with status 0): with LLT = 0 the session ends in
FST_TRANSITION_DONE_STATE and the band switch runs immediately (isInitiator =
false for the responder, true for the initiator) with no timer armed; with
LLT > 0 the session ends in FST_SETUP_COMPLETION_STATE, no switch runs, and a
countdown is armed for exactly LLT * 32 microseconds from now, at whose expiry
the band switch is invoked with the same isInitiator flag. -/
theorem setup_response_llt_branching (w : World) (peer : Nat) (s : FstSession)
    (h : lookupSession w.mac.fstSessionMap peer = some s) :
    (s.LLT = 0 →
      ((lookupSession (txOkFstSetupResponse w peer).mac.fstSessionMap peer).map
          FstSession.CurrentState = some FstStateKind.FST_TRANSITION_DONE_STATE
       ∧ (txOkFstSetupResponse w peer).switches
           = w.switches ++ [(standardOf s.NewBandId, peer, false)]
       ∧ (txOkFstSetupResponse w peer).sim = w.sim)
      ∧
      ((lookupSession (receiveFstSetupResponse w peer 0).mac.fstSessionMap peer).map
          FstSession.CurrentState = some FstStateKind.FST_TRANSITION_DONE_STATE
       ∧ (receiveFstSetupResponse w peer 0).switches
           = w.switches ++ [(standardOf s.NewBandId, peer, true)]
       ∧ (receiveFstSetupResponse w peer 0).sim = w.sim))
  ∧ (s.LLT ≠ 0 →
      ((lookupSession (txOkFstSetupResponse w peer).mac.fstSessionMap peer).map
          FstSession.CurrentState = some FstStateKind.FST_SETUP_COMPLETION_STATE
       ∧ (txOkFstSetupResponse w peer).sim.pending
           = w.sim.pending ++
             [{ eid := w.sim.nextEid, time := w.sim.now + s.LLT * 32,
                peer := peer, band := s.NewBandId, isInitiator := false }]
       ∧ (txOkFstSetupResponse w peer).switches = w.switches
       ∧ (fireEvent (txOkFstSetupResponse w peer)
            { eid := w.sim.nextEid, time := w.sim.now + s.LLT * 32,
              peer := peer, band := s.NewBandId, isInitiator := false }).switches
           = w.switches ++ [(standardOf s.NewBandId, peer, false)])
      ∧
      ((lookupSession (receiveFstSetupResponse w peer 0).mac.fstSessionMap peer).map
          FstSession.CurrentState = some FstStateKind.FST_SETUP_COMPLETION_STATE
       ∧ (receiveFstSetupResponse w peer 0).sim.pending
           = w.sim.pending ++
             [{ eid := w.sim.nextEid, time := w.sim.now + s.LLT * 32,
                peer := peer, band := s.NewBandId, isInitiator := true }]
       ∧ (receiveFstSetupResponse w peer 0).switches = w.switches
       ∧ (fireEvent (receiveFstSetupResponse w peer 0)
            { eid := w.sim.nextEid, time := w.sim.now + s.LLT * 32,
              peer := peer, band := s.NewBandId, isInitiator := true }).switches
           = w.switches ++ [(standardOf s.NewBandId, peer, true)])) := by
  constructor
  · intro hL
    simp [txOkFstSetupResponse, receiveFstSetupResponse, mapIndex, h, hL,
          changeBand, lookupSession_storeSession_self]
  · intro hL
    simp [txOkFstSetupResponse, receiveFstSetupResponse, mapIndex, h, hL,
          changeBand, scheduleChangeBand, fireEvent,
          lookupSession_storeSession_self]

/-- C2 witness: both LLT branches at concrete worlds (LLT = 0 and LLT = 7). -/
theorem setup_response_llt_branching_witness :
    ((lookupSession (txOkFstSetupResponse wLltZero 3).mac.fstSessionMap 3).map
        FstSession.CurrentState = some FstStateKind.FST_TRANSITION_DONE_STATE)
  ∧ ((lookupSession (txOkFstSetupResponse wLltSeven 3).mac.fstSessionMap 3).map
        FstSession.CurrentState = some FstStateKind.FST_SETUP_COMPLETION_STATE) :=
  ⟨((setup_response_llt_branching wLltZero 3 sessLltZero (by decide)).1
      (by decide)).1.1,
   ((setup_response_llt_branching wLltSeven 3 sessLltSeven (by decide)).2
      (by decide)).1.1⟩

/-- C3: the link-loss refresh rule.  When a session for the peer exists, is in
FST_SETUP_COMPLETION_STATE and its countdown is running, a successful
transmission (`MacTxOk`) or reception (`MacRxOk`) cancels the running event
and re-arms a fresh one for the full LLT * 32 duration from the current
instant; no switch happens at that point, and the band switch fires exactly
LLT * 32 after this last exchange with the session's own isInitiator flag.
When there is no session, the session is in another state, or the timer is not
running, both notifications leave the world unchanged. -/
theorem link_loss_refresh_on_tx_rx (w : World) (a : Nat) :
    (∀ s, lookupSession w.mac.fstSessionMap a = some s →
      s.CurrentState = FstStateKind.FST_SETUP_COMPLETION_STATE →
      isRunning w.sim s.LinkLossCountDownEvent = true →
        ((macTxOk w a).sim.pending
            = w.sim.pending.filter (fun e => e.eid ≠ s.LinkLossCountDownEvent) ++
              [{ eid := w.sim.nextEid, time := w.sim.now + s.LLT * 32,
                 peer := a, band := s.NewBandId, isInitiator := s.IsInitiator }]
        ∧ (macTxOk w a).switches = w.switches
        ∧ lookupSession (macTxOk w a).mac.fstSessionMap a
            = some { s with LinkLossCountDownEvent := w.sim.nextEid }
        ∧ (fireEvent (macTxOk w a)
             { eid := w.sim.nextEid, time := w.sim.now + s.LLT * 32,
               peer := a, band := s.NewBandId, isInitiator := s.IsInitiator }).switches
            = w.switches ++ [(standardOf s.NewBandId, a, s.IsInitiator)]
        ∧ macRxOk w a = macTxOk w a))
  ∧ (lookupSession w.mac.fstSessionMap a = none →
      macTxOk w a = w ∧ macRxOk w a = w)
  ∧ (∀ s, lookupSession w.mac.fstSessionMap a = some s →
      (s.CurrentState ≠ FstStateKind.FST_SETUP_COMPLETION_STATE ∨
        isRunning w.sim s.LinkLossCountDownEvent = false) →
      macTxOk w a = w ∧ macRxOk w a = w) := by
  refine ⟨?_, ?_, ?_⟩
  · intro s hs hstate hrun
    simp [macTxOk, macRxOk, hs, hstate, hrun, cancelEvent, scheduleChangeBand,
          fireEvent, changeBand, lookupSession_storeSession_self]
  · intro hnone
    simp [macTxOk, macRxOk, hnone]
  · intro s hs hcase
    rcases hcase with hstate | hrun
    · simp [macTxOk, macRxOk, hs, hstate]
    · simp [macTxOk, macRxOk, hs, hrun]

/-- C3 witness: the armed world (refresh re-arms to t = 20 + 160 = 180) and
the empty world (no session: both notifications are no-ops). -/
theorem link_loss_refresh_on_tx_rx_witness :
    ((macTxOk wArmed 1).sim.pending
        = [{ eid := 2, time := 180, peer := 1, band := BandID.Band_4_9GHz,
             isInitiator := true }])
  ∧ macTxOk wEmpty 1 = wEmpty :=
  ⟨by
      have h := ((link_loss_refresh_on_tx_rx wArmed 1).1 sessArmed (by decide)
        (by decide) (by decide)).1
      simpa using h,
   ((link_loss_refresh_on_tx_rx wEmpty 1).2.1 (by decide)).1⟩

/-- Copying agreements never changes the target queue's frames. -/
theorem copyBlockAckAgreements_frames (a : Nat) (src tgt : WifiMacQueue) :
    (copyBlockAckAgreements a src tgt).frames = tgt.frames := by
  unfold copyBlockAckAgreements
  cases lookupAgreement src.agreements a <;> rfl

/-- The association dispatch never touches any of the five queues. -/
theorem carryOverAssociation_queues (a : Nat) (oldB newB : MacBundle) :
    (carryOverAssociation a oldB newB).dcaQueue = newB.dcaQueue
  ∧ (carryOverAssociation a oldB newB).voQueue = newB.voQueue
  ∧ (carryOverAssociation a oldB newB).viQueue = newB.viQueue
  ∧ (carryOverAssociation a oldB newB).beQueue = newB.beQueue
  ∧ (carryOverAssociation a oldB newB).bkQueue = newB.bkQueue := by
  cases h : newB.typeOfStation <;> simp [carryOverAssociation, h]

/-- The aliased association dispatch (old MAC = new MAC, as in a same-band
`BandChanged`) leaves the BSS identifier and MAC association state unchanged
for every role, and only mutates the association records for AP roles. -/
theorem carryOverAssociation_self_fields (a : Nat) (b : MacBundle) :
    (carryOverAssociation a b b).bssid = b.bssid
  ∧ (carryOverAssociation a b b).assocState = b.assocState
  ∧ (carryOverAssociation a b b).typeOfStation = b.typeOfStation := by
  cases h : b.typeOfStation <;> simp [carryOverAssociation, h]

/-- C4: for a switch to a different registered band, each of the four access
categories (voice, video, best-effort, background) has exactly the frames
addressed to `address` moved from the old bundle's queue to the new bundle's
corresponding queue: the new queue is its previous content followed by
precisely those frames in their original relative order, the source queue
retains precisely the frames for other destinations in their original order
(hence none for `address`), and the old queue's block-ack agreement for
`address`, when present, is afterwards installed on the new queue; exactly one
completion notification is issued. -/
theorem band_switch_queue_migration (d : MultiBandNetDevice)
    (standard : WifiPhyStandard) (address : Nat) (isInit : Bool)
    (oldB newB : MacBundle)
    (hne : d.active ≠ standard)
    (hold : lookupBundle d.list d.active = some oldB)
    (hnew : lookupBundle d.list standard = some newB) :
    ∀ ac : AcIndex,
      ((lookupBundle (bandChanged d standard address isInit).device.list standard).map
          (fun b => (acQueue b ac).frames))
        = some ((acQueue newB ac).frames ++
            (acQueue oldB ac).frames.filter (fun f => f.dest = address))
    ∧ ((lookupBundle (bandChanged d standard address isInit).device.list d.active).map
          (fun b => (acQueue b ac).frames))
        = some ((acQueue oldB ac).frames.filter (fun f => f.dest ≠ address))
    ∧ (∀ g, lookupAgreement (acQueue oldB ac).agreements address = some g →
        ((lookupBundle (bandChanged d standard address isInit).device.list standard).map
            (fun b => lookupAgreement (acQueue b ac).agreements address))
          = some (some g))
    ∧ (bandChanged d standard address isInit).notified
        = [(standard, address, isInit)] := by
  intro ac
  have e1 : bundleIndex d.list d.active = (d.list, oldB) := bundleIndex_eq_of_lookup hold
  have e2 : bundleIndex d.list standard = (d.list, newB) := bundleIndex_eq_of_lookup hnew
  refine ⟨?_, ?_, ?_, ?_⟩
  · cases ac <;>
      simp [bandChanged, hne, e1, e2, transferPacketsByAddress, acQueue,
            copyBlockAckAgreements_frames, carryOverAssociation_queues,
            lookupBundle_storeBundle_self]
  · cases ac <;>
      simp [bandChanged, hne, e1, e2, transferPacketsByAddress, acQueue,
            lookupBundle_storeBundle_self, lookupBundle_storeBundle_ne _ _ hne]
  · intro g hg
    cases ac <;>
      simp_all [bandChanged, hne, e1, e2, transferPacketsByAddress,
            copyBlockAckAgreements, acQueue, carryOverAssociation_queues,
            lookupBundle_storeBundle_self, lookupAgreement_storeAgreement_self]
  · simp [bandChanged, hne, e1, e2]

/-- C4 witness: on `devTwoBands`, switching from 802.11ad to 802.11n/5GHz for
peer 1 moves the single voice frame for peer 1 behind no pre-existing voice
frames on the new bundle, and leaves only peer 2's frame on the old queue. -/
theorem band_switch_queue_migration_witness :
    ((lookupBundle (bandChanged devTwoBands
          WifiPhyStandard.WIFI_PHY_STANDARD_80211n_5GHZ 1 true).device.list
        WifiPhyStandard.WIFI_PHY_STANDARD_80211n_5GHZ).map
      (fun b => (acQueue b AcIndex.AC_VO).frames))
      = some [{ dest := 1, payload := 10 }] :=
  by
    have h := (band_switch_queue_migration devTwoBands
      WifiPhyStandard.WIFI_PHY_STANDARD_80211n_5GHZ 1 true bundleSixty bundleFive
      (by decide) (by decide) (by decide) AcIndex.AC_VO).1
    simpa using h

/-- C5: block-ack agreement fidelity.  If the old bundle's queue for an access
category holds an agreement (startingSequence, bufferSize, timeout) for the
peer, then after the switch the new bundle's queue for that category holds an
agreement with identical parameters, and the old bundle's agreement is not
removed: it is still there, intact. -/
theorem band_switch_agreement_fidelity (d : MultiBandNetDevice)
    (standard : WifiPhyStandard) (address : Nat) (isInit : Bool)
    (oldB newB : MacBundle) (ac : AcIndex) (g : BlockAckAgreement)
    (hne : d.active ≠ standard)
    (hold : lookupBundle d.list d.active = some oldB)
    (hnew : lookupBundle d.list standard = some newB)
    (hg : lookupAgreement (acQueue oldB ac).agreements address = some g) :
    ((lookupBundle (bandChanged d standard address isInit).device.list standard).map
        (fun b => lookupAgreement (acQueue b ac).agreements address))
      = some (some g)
  ∧ ((lookupBundle (bandChanged d standard address isInit).device.list d.active).map
        (fun b => lookupAgreement (acQueue b ac).agreements address))
      = some (some g) := by
  have e1 : bundleIndex d.list d.active = (d.list, oldB) := bundleIndex_eq_of_lookup hold
  have e2 : bundleIndex d.list standard = (d.list, newB) := bundleIndex_eq_of_lookup hnew
  constructor
  · cases ac <;>
      simp_all [bandChanged, hne, e1, e2, transferPacketsByAddress,
            copyBlockAckAgreements, acQueue, carryOverAssociation_queues,
            lookupBundle_storeBundle_self, lookupAgreement_storeAgreement_self]
  · cases ac <;>
      simp_all [bandChanged, hne, e1, e2, transferPacketsByAddress,
            copyBlockAckAgreements, acQueue, lookupBundle_storeBundle_self,
            lookupBundle_storeBundle_ne _ _ hne]

/-- C5 witness: peer 1's voice agreement (4, 64, 100) on the 60 GHz bundle is
present on both bundles after the switch to 5 GHz. -/
theorem band_switch_agreement_fidelity_witness :
    ((lookupBundle (bandChanged devTwoBands
          WifiPhyStandard.WIFI_PHY_STANDARD_80211n_5GHZ 1 true).device.list
        WifiPhyStandard.WIFI_PHY_STANDARD_80211n_5GHZ).map
      (fun b => lookupAgreement (acQueue b AcIndex.AC_VO).agreements 1))
      = some (some { startingSequence := 4, bufferSize := 64, timeout := 100 }) :=
  (band_switch_agreement_fidelity devTwoBands
    WifiPhyStandard.WIFI_PHY_STANDARD_80211n_5GHZ 1 true bundleSixty bundleFive
    AcIndex.AC_VO { startingSequence := 4, bufferSize := 64, timeout := 100 }
    (by decide) (by decide) (by decide) (by decide)).1

/-- C6 counterexample: invoking the band switch with a target equal to the
active band is NOT a no-op beyond the notification, on two counts.  Queue
contents: `devOneBand` (station role) holds in its voice queue a frame for
peer 1 followed by one for peer 2, and the aliased transfer moves peer 1's
frame behind peer 2's, so the technology list differs from before the call.
Association state: `devApBand` (AP role) has an empty station-tracking table,
and the unguarded role dispatch still runs `RecordGotAssocTxOk`, marking
peer 3 as associated. -/
theorem same_band_switch_not_noop :
    (bandChanged devOneBand WifiPhyStandard.WIFI_PHY_STANDARD_80211ad
        1 false).device.list ≠ devOneBand.list
  ∧ ((lookupBundle (bandChanged devOneBand
          WifiPhyStandard.WIFI_PHY_STANDARD_80211ad 1 false).device.list
        WifiPhyStandard.WIFI_PHY_STANDARD_80211ad).map
      (fun b => b.voQueue.frames))
      = some [{ dest := 2, payload := 20 }, { dest := 1, payload := 10 }]
  ∧ bundleApSixty.assocRecords = []
  ∧ ((lookupBundle (bandChanged devApBand
          WifiPhyStandard.WIFI_PHY_STANDARD_80211ad 3 false).device.list
        WifiPhyStandard.WIFI_PHY_STANDARD_80211ad).map
      MacBundle.assocRecords)
      = some [3] := by
  decide

/-- C6 amended: a switch targeting the currently active band still runs the
whole migration against the single aliased bundle.  Block-ack agreements, the
BSS identifier and the client-role MAC association state are unchanged and
exactly one completion notification fires, but the call is not a no-op:
(a) queue contents are preserved only as multisets — in the DCA queue and in
each access-category queue the frames for the peer are moved to the tail
(frames for other peers keep their relative order in front, the peer's frames
keep theirs behind), so a queue is untouched only when the peer's frames
already form its suffix; and (b) the role dispatch runs unguarded: for a
client or ad-hoc role (STA, DMG_STA, DMG_ADHOC) the association records are
unchanged, but for an access-point role (AP, DMG_AP) `RecordGotAssocTxOk`
still marks the peer as associated in the bundle's station-tracking table — a
mutation whenever the peer was not already recorded there. -/
theorem same_band_switch_reorders_to_tail (d : MultiBandNetDevice) (address : Nat)
    (isInit : Bool) (b : MacBundle)
    (hact : lookupBundle d.list d.active = some b) :
    ((lookupBundle (bandChanged d d.active address isInit).device.list d.active).map
        (fun x => x.dcaQueue.frames))
      = some (b.dcaQueue.frames.filter (fun f => f.dest ≠ address) ++
              b.dcaQueue.frames.filter (fun f => f.dest = address))
  ∧ (∀ ac : AcIndex,
      ((lookupBundle (bandChanged d d.active address isInit).device.list d.active).map
          (fun x => (acQueue x ac).frames))
        = some ((acQueue b ac).frames.filter (fun f => f.dest ≠ address) ++
                (acQueue b ac).frames.filter (fun f => f.dest = address))
      ∧ ((lookupBundle (bandChanged d d.active address isInit).device.list d.active).map
          (fun x => (acQueue x ac).agreements))
        = some ((acQueue b ac).agreements))
  ∧ ((lookupBundle (bandChanged d d.active address isInit).device.list d.active).map
        MacBundle.bssid) = some b.bssid
  ∧ ((lookupBundle (bandChanged d d.active address isInit).device.list d.active).map
        MacBundle.assocState) = some b.assocState
  ∧ ((b.typeOfStation = TypeOfStation.STA ∨ b.typeOfStation = TypeOfStation.DMG_STA ∨
        b.typeOfStation = TypeOfStation.DMG_ADHOC) →
      ((lookupBundle (bandChanged d d.active address isInit).device.list d.active).map
          MacBundle.assocRecords) = some b.assocRecords)
  ∧ ((b.typeOfStation = TypeOfStation.AP ∨ b.typeOfStation = TypeOfStation.DMG_AP) →
      ((lookupBundle (bandChanged d d.active address isInit).device.list d.active).map
          MacBundle.assocRecords) = some (recordGotAssocTxOk b.assocRecords address))
  ∧ (bandChanged d d.active address isInit).notified
      = [(d.active, address, isInit)] := by
  have e1 : bundleIndex d.list d.active = (d.list, b) := bundleIndex_eq_of_lookup hact
  refine ⟨?_, ?_, ?_, ?_, ?_, ?_, ?_⟩
  · simp [bandChanged, e1, transferPacketsByAddressSelf, carryOverAssociation_queues,
          copyBlockAckAgreements_self, lookupBundle_storeBundle_self]
  · intro ac
    constructor <;> cases ac <;>
      simp [bandChanged, e1, transferPacketsByAddressSelf, acQueue,
            carryOverAssociation_queues, copyBlockAckAgreements_self,
            lookupBundle_storeBundle_self]
  · cases h : b.typeOfStation <;>
      simp [bandChanged, e1, copyBlockAckAgreements_self,
            lookupBundle_storeBundle_self, carryOverAssociation, h]
  · cases h : b.typeOfStation <;>
      simp [bandChanged, e1, copyBlockAckAgreements_self,
            lookupBundle_storeBundle_self, carryOverAssociation, h]
  · intro hrole
    rcases hrole with h | h | h <;>
      simp [bandChanged, e1, copyBlockAckAgreements_self,
            lookupBundle_storeBundle_self, carryOverAssociation, h]
  · intro hrole
    rcases hrole with h | h <;>
      simp [bandChanged, e1, copyBlockAckAgreements_self,
            lookupBundle_storeBundle_self, carryOverAssociation, h]
  · simp [bandChanged, e1]

/-- C6 amended witness: the aliased switch on station-role `devOneBand` keeps
peer 1's voice agreement and its association records, while on AP-role
`devApBand` it records peer 3 as associated. -/
theorem same_band_switch_reorders_to_tail_witness :
    ((lookupBundle (bandChanged devOneBand
          WifiPhyStandard.WIFI_PHY_STANDARD_80211ad 1 false).device.list
        WifiPhyStandard.WIFI_PHY_STANDARD_80211ad).map
      (fun x => (acQueue x AcIndex.AC_VO).agreements))
      = some [(1, { startingSequence := 4, bufferSize := 64, timeout := 100 })]
  ∧ ((lookupBundle (bandChanged devOneBand
          WifiPhyStandard.WIFI_PHY_STANDARD_80211ad 1 false).device.list
        WifiPhyStandard.WIFI_PHY_STANDARD_80211ad).map
      MacBundle.assocRecords) = some []
  ∧ ((lookupBundle (bandChanged devApBand
          WifiPhyStandard.WIFI_PHY_STANDARD_80211ad 3 false).device.list
        WifiPhyStandard.WIFI_PHY_STANDARD_80211ad).map
      MacBundle.assocRecords) = some [3] := by
  refine ⟨?_, ?_, ?_⟩
  · have h := ((same_band_switch_reorders_to_tail devOneBand 1 false bundleSixty
      (by decide)).2.1 AcIndex.AC_VO).2
    simpa [devOneBand, bundleSixty, defaultMacBundle] using h
  · have h := (same_band_switch_reorders_to_tail devOneBand 1 false bundleSixty
      (by decide)).2.2.2.2.1 (Or.inl rfl)
    simpa [devOneBand, bundleSixty, defaultMacBundle] using h
  · have h := (same_band_switch_reorders_to_tail devApBand 3 false bundleApSixty
      (by decide)).2.2.2.2.2.1 (Or.inl rfl)
    simpa [devApBand, bundleApSixty, defaultMacBundle, recordGotAssocTxOk] using h

end NetworkDigitalTwin
